import Mathlib

/-!
Shallow embedding of `src/registerSubdomain.py` (repository
`createStudentServers`), a 35-line script whose `main` procedure

  1. loads five configuration values from the process environment
     (lines 13-17),
  2. reads `subdomain = sys.argv[1]` (line 19),
  3. constructs an XML-RPC `ServerProxy` from the configured URI
     (line 21),
  4. calls `client.addSubdomain(...)` (line 22), sleeps one second
     (line 24), builds `record_obj` (lines 25-30), and calls
     `client.addZoneRecord(...)` (line 31).

Python name resolution is modelled explicitly: local assignments extend a
scope (an association list keyed by the Python identifier), and every
identifier that appears in an expression is resolved through that scope,
so that the unbound identifier `domain` at lines 22 and 31 produces a
`NameError` by computation rather than by fiat.  Remote responses are a
parameter (`responder`), and the observable behaviour is a trace of
events paired with the final outcome (`Except PyError Unit`): an
exception that reaches the top of `main` is the `.error` outcome.
-/

namespace RegisterSubdomain

/-- A process environment: maps an environment-variable name to its value,
`none` when the variable is unset. `load_dotenv()` (line 11) only merges a
`.env` file into this map before it is read, so the model takes the
post-`load_dotenv` environment as the input. -/
abbrev Env := String → Option String

/-- Python runtime values, restricted to the shapes this script produces:
strings, integers, `None`, the `ServerProxy` object, and dictionaries with
string keys. -/
inductive Value where
  | str (s : String)
  | int (n : Int)
  | pynone
  | clientObj
  | dict (fields : List (String × Value))

/-- The exceptions this script can raise: `NameError` for an unbound
identifier, `IndexError` for the out-of-range `sys.argv[1]`, `TypeError`
for `ServerProxy(uri=None)` (the URI is passed to `urllib.parse` string
splitting), and the `OSError("unsupported XML-RPC protocol")` that
`ServerProxy.__init__` raises for a URI whose scheme is neither `http`
nor `https`. -/
inductive PyError where
  | nameError (name : String)
  | indexError
  | typeError
  | osError
deriving DecidableEq, Repr

/-- Observable events of one execution, in order: the URI value being
handed to `ServerProxy` (line 21), successful construction of the client,
a remote call (method name and the argument values, in positional order),
the `time.sleep` (line 24), and any text written by the program (the
script's two `print(response)` lines are commented out, so no `output`
event is ever emitted). -/
inductive Event where
  | clientConstructAttempt (uri : Value)
  | clientConstructed
  | call (method : String) (args : List Value)
  | sleep (seconds : Nat)
  | output (s : String)

/-- `os.getenv(key)` (lines 13-17): the string value when the variable is
set, Python `None` otherwise; no validation of any kind. -/
def getenv (env : Env) (key : String) : Value :=
  match env key with
  | some s => Value.str s
  | none => Value.pynone

/-- The local scope of `main` after the five configuration assignments of
lines 13-17, in order. Each Python identifier is bound to the unmodified
`os.getenv` result. -/
def mainScope (env : Env) : List (String × Value) :=
  [("global_api_username", getenv env "DNS_API_USER"),
   ("global_api_password", getenv env "DNS_API_PASS"),
   ("school_ip_address", getenv env "SCHOOL_IP_ADDRESS"),
   ("global_dns_uri", getenv env "DNS_API_URI"),
   ("domain_suffix", getenv env "DOMAIN_SUFFIX")]

/-- Resolution of one Python identifier in the current scope: the bound
value, or a `NameError` naming the identifier when it is unbound. -/
def evalName (scope : List (String × Value)) (n : String) :
    Except PyError Value :=
  match scope.lookup n with
  | some v => Except.ok v
  | none => Except.error (PyError.nameError n)

/-- Left-to-right evaluation of the identifiers appearing as arguments of
a call expression; the first unbound identifier aborts the evaluation, so
no remote call is issued when an argument raises. -/
def evalNames (scope : List (String × Value)) :
    List String → Except PyError (List Value)
  | [] => Except.ok []
  | n :: ns =>
    match evalName scope n with
    | Except.error e => Except.error e
    | Except.ok v =>
      match evalNames scope ns with
      | Except.error e => Except.error e
      | Except.ok vs => Except.ok (v :: vs)

/-- ASCII lowercasing of one character, as `str.lower` applies it to the
scheme letters of a URI. -/
def asciiToLower (c : Char) : Char :=
  if 65 <= c.toNat && c.toNat <= 90 then Char.ofNat (c.toNat + 32) else c

/-- The scheme `urllib` extracts from a URI: the characters before the
first colon, lowercased; `none` when the URI has no colon at all. -/
def schemeChars : List Char → Option (List Char)
  | [] => none
  | c :: cs =>
    if c = ':' then some [] else
      match schemeChars cs with
      | none => none
      | some s => some (asciiToLower c :: s)

/-- `ServerProxy.__init__` accepts the URI string exactly when it has a
colon and its scheme is `http` or `https`; otherwise it raises before any
network activity. -/
def uriSchemeSupported (u : String) : Bool :=
  match schemeChars u.toList with
  | some s => s == "http".toList || s == "https".toList
  | none => false

/-- The dictionary literal of lines 25-30: every field except `rdata` is a
hardcoded constant; `rdata` is the value bound to `school_ip_address`. -/
def record_obj (rdata : Value) : Value :=
  Value.dict
    [("type", Value.str "A"),
     ("ttl", Value.int 3600),
     ("priority", Value.int 1),
     ("rdata", rdata),
     ("record_id", Value.int 10)]

/-- A responder assigns a return value to each remote call (method name
and arguments); it stands for the remote DNS service. -/
abbrev Responder := String → List Value → Value

/-- One execution of `main()` (lines 10-31), faithful to source order:
environment loading (no failure possible), `sys.argv[1]` (IndexError when
absent), `ServerProxy` construction from the value of `global_dns_uri`,
then the `addSubdomain` call, `time.sleep(1)`, the `record_obj`
assignment, and the `addZoneRecord` call.  Both call expressions name the
identifier `domain` (lines 22 and 31), which no assignment in the program
binds.  Returns the event trace together with the outcome of `main`. -/
def run (responder : Responder) (env : Env) (argv : List String) :
    List Event × Except PyError Unit :=
  let scope0 := mainScope env
  match argv.get? 1 with
  | none => ([], Except.error PyError.indexError)
  | some sub =>
    let scope1 := ("subdomain", Value.str sub) :: scope0
    match evalName scope1 "global_dns_uri" with
    | Except.error e => ([], Except.error e)
    | Except.ok uriVal =>
      let ev0 := [Event.clientConstructAttempt uriVal]
      match uriVal with
      | Value.str u =>
        if uriSchemeSupported u then
          let scope2 := ("client", Value.clientObj) :: scope1
          let ev1 := ev0 ++ [Event.clientConstructed]
          match evalNames scope2
              ["global_api_username", "global_api_password",
               "domain", "subdomain"] with
          | Except.error e => (ev1, Except.error e)
          | Except.ok args1 =>
            let ev2 := ev1 ++ [Event.call "addSubdomain" args1]
            let scope3 :=
              ("response", responder "addSubdomain" args1) :: scope2
            let ev3 := ev2 ++ [Event.sleep 1]
            match evalName scope3 "school_ip_address" with
            | Except.error e => (ev3, Except.error e)
            | Except.ok ip =>
              let scope4 := ("record_obj", record_obj ip) :: scope3
              match evalNames scope4
                  ["global_api_username", "global_api_password",
                   "domain", "subdomain", "record_obj"] with
              | Except.error e => (ev3, Except.error e)
              | Except.ok args2 =>
                (ev3 ++ [Event.call "addZoneRecord" args2], Except.ok ())
        else (ev0, Except.error PyError.osError)
      | _ => (ev0, Except.error PyError.typeError)

/-- Modelled from the spec: the spec states the intended reading of lines
22 and 31 is the loaded `domain_suffix` and calls the reference to the
unbound `domain` "an apparent bug".  `runIntended` is `run` with that one
slip repaired (each call expression names `domain_suffix` instead of
`domain`); nothing else differs.  It is used to check, at concrete
inputs, that the behaviour the claims describe is exactly what the
repaired program exhibits. -/
def runIntended (responder : Responder) (env : Env) (argv : List String) :
    List Event × Except PyError Unit :=
  let scope0 := mainScope env
  match argv.get? 1 with
  | none => ([], Except.error PyError.indexError)
  | some sub =>
    let scope1 := ("subdomain", Value.str sub) :: scope0
    match evalName scope1 "global_dns_uri" with
    | Except.error e => ([], Except.error e)
    | Except.ok uriVal =>
      let ev0 := [Event.clientConstructAttempt uriVal]
      match uriVal with
      | Value.str u =>
        if uriSchemeSupported u then
          let scope2 := ("client", Value.clientObj) :: scope1
          let ev1 := ev0 ++ [Event.clientConstructed]
          match evalNames scope2
              ["global_api_username", "global_api_password",
               "domain_suffix", "subdomain"] with
          | Except.error e => (ev1, Except.error e)
          | Except.ok args1 =>
            let ev2 := ev1 ++ [Event.call "addSubdomain" args1]
            let scope3 :=
              ("response", responder "addSubdomain" args1) :: scope2
            let ev3 := ev2 ++ [Event.sleep 1]
            match evalName scope3 "school_ip_address" with
            | Except.error e => (ev3, Except.error e)
            | Except.ok ip =>
              let scope4 := ("record_obj", record_obj ip) :: scope3
              match evalNames scope4
                  ["global_api_username", "global_api_password",
                   "domain_suffix", "subdomain", "record_obj"] with
              | Except.error e => (ev3, Except.error e)
              | Except.ok args2 =>
                (ev3 ++ [Event.call "addZoneRecord" args2], Except.ok ())
        else (ev0, Except.error PyError.osError)
      | _ => (ev0, Except.error PyError.typeError)

/-- A fully populated concrete environment, used as the concrete input of
the counterexample and witness theorems. -/
def fullEnv : Env := fun k =>
  if k = "DNS_API_USER" then some "admin"
  else if k = "DNS_API_PASS" then some "hunter2"
  else if k = "SCHOOL_IP_ADDRESS" then some "192.0.2.10"
  else if k = "DNS_API_URI" then some "https://dns.example.org/RPC2"
  else if k = "DOMAIN_SUFFIX" then some "school.example"
  else none

/-- A second fully populated concrete environment, differing from
`fullEnv` in every value; used to exhibit which parts of the behaviour
vary with the environment and which are hardcoded. -/
def altEnv : Env := fun k =>
  if k = "DNS_API_USER" then some "apiuser"
  else if k = "DNS_API_PASS" then some "s3cret-pw"
  else if k = "SCHOOL_IP_ADDRESS" then some "198.51.100.7"
  else if k = "DNS_API_URI" then some "http://ns.school.example/xmlrpc"
  else if k = "DOMAIN_SUFFIX" then some "students.example"
  else none

/-- The environment in which none of the five variables is set. -/
def emptyEnv : Env := fun _ => none

/-- A concrete responder whose every reply is `None`. -/
def silentResponder : Responder := fun _ _ => Value.pynone

/-- A concrete responder whose replies depend on the called method; used
to exhibit that the sleep does not depend on the responses. -/
def strResponder : Responder := fun m _ => Value.str m

end RegisterSubdomain

namespace RegisterSubdomain

/-- C2: both remote call sites (lines 22 and 31) reference the identifier
`domain`, which no assignment of the program binds — the first conjunct
checks it is absent even from the fullest scope in force at the first
call site, where the configuration value is bound to `domain_suffix`
instead.  Hence every execution that reaches the first remote call site
(the subdomain argument is present and the configured URI is accepted by
`ServerProxy`) ends with `NameError` raised while evaluating that call's
arguments: the final trace shows the client was constructed but no
remote call was ever issued. -/
theorem nameError_before_first_call
    (responder : Responder) (env : Env) (argv : List String)
    (sub u : String)
    (hargv : argv[1]? = some sub)
    (henv : env "DNS_API_URI" = some u)
    (hscheme : uriSchemeSupported u = true) :
    (("client", Value.clientObj) :: ("subdomain", Value.str sub) ::
        mainScope env).lookup "domain" = none ∧
    run responder env argv =
      ([Event.clientConstructAttempt (Value.str u), Event.clientConstructed],
       Except.error (PyError.nameError "domain")) := by
  refine ⟨rfl, ?_⟩
  simp [run, hargv, evalName, evalNames, mainScope, getenv, henv,
    List.lookup, hscheme]

/-- Witness for C2 at a concrete input: all five variables set, URI
`https://dns.example.org/RPC2`, subdomain `wiki`. -/
theorem nameError_before_first_call_witness :
    (("client", Value.clientObj) :: ("subdomain", Value.str "wiki") ::
        mainScope fullEnv).lookup "domain" = none ∧
    run silentResponder fullEnv ["registerSubdomain.py", "wiki"] =
      ([Event.clientConstructAttempt (Value.str "https://dns.example.org/RPC2"),
        Event.clientConstructed],
       Except.error (PyError.nameError "domain")) :=
  nameError_before_first_call silentResponder fullEnv
    ["registerSubdomain.py", "wiki"] "wiki" "https://dns.example.org/RPC2"
    rfl rfl rfl

/-- C5: with no positional command-line argument, `sys.argv[1]` (line 19)
raises `IndexError`, and the execution ends with that fault and an empty
trace: the `ServerProxy` was never constructed and no remote call was
issued. -/
theorem missing_argument_indexError
    (responder : Responder) (env : Env) (argv : List String)
    (hargv : argv.length ≤ 1) :
    run responder env argv = ([], Except.error PyError.indexError) := by
  have hnone : argv[1]? = none := by
    cases argv with
    | nil => rfl
    | cons a t =>
      cases t with
      | nil => rfl
      | cons b t2 =>
        exfalso
        simp [List.length_cons] at hargv
  simp [run, hnone]

/-- Witness for C5 at the concrete input `argv = [program name]` with a
fully populated environment. -/
theorem missing_argument_indexError_witness :
    run silentResponder fullEnv ["registerSubdomain.py"] =
      ([], Except.error PyError.indexError) :=
  missing_argument_indexError silentResponder fullEnv
    ["registerSubdomain.py"] (by decide)

/-- C10: the observable behaviour (the full trace and the outcome)
depends only on the environment and on `sys.argv[1]`: two invocations
agreeing on those but differing in the program name slot and in any
additional command-line arguments behave identically. -/
theorem extra_args_irrelevant
    (responder : Responder) (env : Env) (a0 b0 a1 : String)
    (rest restAlt : List String) :
    run responder env (a0 :: a1 :: rest) =
      run responder env (b0 :: a1 :: restAlt) := rfl

end RegisterSubdomain

namespace RegisterSubdomain

/-- C6: the program contains no exception handling: for every responder,
environment and argument vector whatsoever, the outcome of `main` is an
uncaught exception (the `IndexError`, `TypeError`, `OSError` or
`NameError` of the respective branch) — the `.ok` outcome is unreachable
— and the trace contains no output of any kind, so nothing is caught,
logged or printed on the way out. -/
theorem unhandled_faults_no_output
    (responder : Responder) (env : Env) (argv : List String) :
    (∃ e, (run responder env argv).2 = Except.error e) ∧
      ∀ s, Event.output s ∉ (run responder env argv).1 := by
  rcases hargv : argv[1]? with _ | sub
  · simp [run, hargv]
  · rcases henv : env "DNS_API_URI" with _ | u
    · simp [run, hargv, evalName, mainScope, getenv, henv, List.lookup]
    · by_cases hscheme : uriSchemeSupported u
      · simp [run, hargv, evalName, evalNames, mainScope, getenv, henv,
          List.lookup, hscheme]
      · simp [run, hargv, evalName, mainScope, getenv, henv, List.lookup,
          hscheme]

/-- C7: configuration loading (lines 13-17) cannot fail and performs no
validation: whichever of the five variables are unset, execution always
proceeds, the unset ones are loaded as Python `None`, and whenever the
argument vector reaches line 21 the loaded URI value — `None` included —
is handed to `ServerProxy` unchecked, as the first event of the trace
shows. -/
theorem config_loading_unvalidated
    (responder : Responder) (env : Env) (argv : List String) (sub : String)
    (hargv : argv[1]? = some sub) :
    (run responder env argv).1.head? =
      some (Event.clientConstructAttempt (getenv env "DNS_API_URI")) ∧
    ∀ k, env k = none → getenv env k = Value.pynone := by
  refine ⟨?_, fun k hk => by simp [getenv, hk]⟩
  rcases henv : env "DNS_API_URI" with _ | u
  · simp [run, hargv, evalName, mainScope, getenv, henv, List.lookup]
  · by_cases hscheme : uriSchemeSupported u
    · simp [run, hargv, evalName, evalNames, mainScope, getenv, henv,
        List.lookup, hscheme]
    · simp [run, hargv, evalName, mainScope, getenv, henv, List.lookup,
        hscheme]

/-- Witness for C7 at the concrete input in which no variable is set: the
loading succeeds, and the `None` loaded for `DNS_API_URI` is what reaches
`ServerProxy`. -/
theorem config_loading_unvalidated_witness :
    (run silentResponder emptyEnv ["registerSubdomain.py", "srv"]).1.head? =
      some (Event.clientConstructAttempt Value.pynone) ∧
    getenv emptyEnv "DNS_API_URI" = Value.pynone := by
  have h := config_loading_unvalidated silentResponder emptyEnv
    ["registerSubdomain.py", "srv"] "srv" rfl
  exact ⟨h.1, h.2 "DNS_API_URI" rfl⟩

end RegisterSubdomain

namespace RegisterSubdomain

/-- C1: the claim says that with all five variables set and a subdomain
argument the program issues `addSubdomain` and then `addZoneRecord`.  On
the code it fails: at a fully configured concrete input, `main` raises
`NameError` for the unbound `domain` while evaluating the first call's
arguments and issues no remote call at all.  The second conjunct shows
the claim describes exactly the intended program (the spec-identified
`domain`-for-`domain_suffix` slip repaired): there, the two calls are
issued in that order with the documented parameters. -/
theorem two_remote_calls_bug_concrete :
    run silentResponder fullEnv ["registerSubdomain.py", "www"] =
      ([Event.clientConstructAttempt (Value.str "https://dns.example.org/RPC2"),
        Event.clientConstructed],
       Except.error (PyError.nameError "domain")) ∧
    runIntended silentResponder fullEnv ["registerSubdomain.py", "www"] =
      ([Event.clientConstructAttempt (Value.str "https://dns.example.org/RPC2"),
        Event.clientConstructed,
        Event.call "addSubdomain"
          [Value.str "admin", Value.str "hunter2",
           Value.str "school.example", Value.str "www"],
        Event.sleep 1,
        Event.call "addZoneRecord"
          [Value.str "admin", Value.str "hunter2",
           Value.str "school.example", Value.str "www",
           record_obj (Value.str "192.0.2.10")]],
       Except.ok ()) :=
  ⟨rfl, rfl⟩

/-- C3: the claim speaks of executions in which both remote calls are
issued; on the code no such execution exists — at a fully configured
concrete input the trace stops at client construction, before the
`time.sleep(1)` line is ever reached.  In the intended program the claim
is exact: the sleep of one second sits at trace position 3, strictly
between the `addSubdomain` event (position 2) and the `addZoneRecord`
event (position 4), and it sits at the same position under a different
environment and a different responder, so it depends on neither. -/
theorem fixed_delay_bug_concrete :
    (run silentResponder fullEnv ["registerSubdomain.py", "srv"]).1 =
      [Event.clientConstructAttempt (Value.str "https://dns.example.org/RPC2"),
       Event.clientConstructed] ∧
    (runIntended silentResponder fullEnv ["registerSubdomain.py", "srv"]).1.get? 2 =
      some (Event.call "addSubdomain"
        [Value.str "admin", Value.str "hunter2",
         Value.str "school.example", Value.str "srv"]) ∧
    (runIntended silentResponder fullEnv ["registerSubdomain.py", "srv"]).1.get? 3 =
      some (Event.sleep 1) ∧
    (runIntended silentResponder fullEnv ["registerSubdomain.py", "srv"]).1.get? 4 =
      some (Event.call "addZoneRecord"
        [Value.str "admin", Value.str "hunter2",
         Value.str "school.example", Value.str "srv",
         record_obj (Value.str "192.0.2.10")]) ∧
    (runIntended strResponder altEnv ["x", "lab"]).1.get? 3 =
      some (Event.sleep 1) :=
  ⟨rfl, rfl, rfl, rfl, rfl⟩

/-- C4: the claim says the record object passed to `addZoneRecord` is the
dictionary with hardcoded `type`, `ttl`, `priority` and `record_id` and
with `rdata` from the environment; on the code nothing is ever passed to
`addZoneRecord` — at a fully configured concrete input the execution dies
with the `NameError` first.  In the intended program the claim is exact:
under two environments differing in every value, the dictionary handed to
`addZoneRecord` is the claimed one, identical except for `rdata`. -/
theorem record_obj_bug_concrete :
    run silentResponder fullEnv ["registerSubdomain.py", "web"] =
      ([Event.clientConstructAttempt (Value.str "https://dns.example.org/RPC2"),
        Event.clientConstructed],
       Except.error (PyError.nameError "domain")) ∧
    (runIntended silentResponder fullEnv ["registerSubdomain.py", "web"]).1.get? 4 =
      some (Event.call "addZoneRecord"
        [Value.str "admin", Value.str "hunter2",
         Value.str "school.example", Value.str "web",
         Value.dict
           [("type", Value.str "A"),
            ("ttl", Value.int 3600),
            ("priority", Value.int 1),
            ("rdata", Value.str "192.0.2.10"),
            ("record_id", Value.int 10)]]) ∧
    (runIntended silentResponder altEnv ["registerSubdomain.py", "web"]).1.get? 4 =
      some (Event.call "addZoneRecord"
        [Value.str "apiuser", Value.str "s3cret-pw",
         Value.str "students.example", Value.str "web",
         Value.dict
           [("type", Value.str "A"),
            ("ttl", Value.int 3600),
            ("priority", Value.int 1),
            ("rdata", Value.str "198.51.100.7"),
            ("record_id", Value.int 10)]]) :=
  ⟨rfl, rfl, rfl⟩

/-- C8: the claim says every remote call the program makes carries the
API username and password from the environment as its first and second
arguments; on the code no remote call is ever made — at a fully
configured concrete input the `NameError` terminates `main` with no call
event in the trace.  In the intended program the claim is exact: both
call events carry the environment's username and password, unmodified,
in the first two argument positions. -/
theorem credentials_bug_concrete :
    run silentResponder altEnv ["registerSubdomain.py", "mail"] =
      ([Event.clientConstructAttempt (Value.str "http://ns.school.example/xmlrpc"),
        Event.clientConstructed],
       Except.error (PyError.nameError "domain")) ∧
    (runIntended silentResponder altEnv ["registerSubdomain.py", "mail"]).1.get? 2 =
      some (Event.call "addSubdomain"
        (Value.str "apiuser" :: Value.str "s3cret-pw" ::
          [Value.str "students.example", Value.str "mail"])) ∧
    (runIntended silentResponder altEnv ["registerSubdomain.py", "mail"]).1.get? 4 =
      some (Event.call "addZoneRecord"
        (Value.str "apiuser" :: Value.str "s3cret-pw" ::
          [Value.str "students.example", Value.str "mail",
           record_obj (Value.str "198.51.100.7")])) :=
  ⟨rfl, rfl, rfl⟩

/-- C9: the claim says every first argument string — the empty string and
non-DNS-label strings included — is passed verbatim to both remote calls;
on the code no call ever receives it — at a concrete input with the empty
string as subdomain, the execution dies with the `NameError` and the
trace holds no call event.  In the intended program the claim is exact:
the empty string and a string that is no valid DNS label are passed to
both calls verbatim, with no normalization, trimming or syntax check. -/
theorem verbatim_subdomain_bug_concrete :
    run silentResponder fullEnv ["registerSubdomain.py", ""] =
      ([Event.clientConstructAttempt (Value.str "https://dns.example.org/RPC2"),
        Event.clientConstructed],
       Except.error (PyError.nameError "domain")) ∧
    (runIntended silentResponder fullEnv ["registerSubdomain.py", ""]).1.get? 2 =
      some (Event.call "addSubdomain"
        [Value.str "admin", Value.str "hunter2",
         Value.str "school.example", Value.str ""]) ∧
    (runIntended silentResponder fullEnv
        ["registerSubdomain.py", " Not..A Label! "]).1.get? 2 =
      some (Event.call "addSubdomain"
        [Value.str "admin", Value.str "hunter2",
         Value.str "school.example", Value.str " Not..A Label! "]) ∧
    (runIntended silentResponder fullEnv
        ["registerSubdomain.py", " Not..A Label! "]).1.get? 4 =
      some (Event.call "addZoneRecord"
        [Value.str "admin", Value.str "hunter2",
         Value.str "school.example", Value.str " Not..A Label! ",
         record_obj (Value.str "192.0.2.10")]) :=
  ⟨rfl, rfl, rfl, rfl⟩

end RegisterSubdomain
